import Mathlib

/-!
Verification of the trip-detail collection logic of the Travelassist
Streamlit application (`src/Travel_streamlit_app.py`).

The Python session dictionary `st.session_state.trip_details` is embedded
as the structure `TripDetails`; the JSON patch produced by the extraction
model (keys `origin, destination, departure_date, return_date, travelers,
trip_type`, any subset present) is embedded as the structure `Patch` with
optional fields.  Python truthiness of a patch value is: a string is truthy
iff non-empty, an integer is truthy iff non-zero.
-/


/-- The `trip_details` dictionary initialised by `init_session_state`
(lines 14-24 of the source). -/
@[ext]
structure TripDetails where
  origin : String
  destination : String
  departure_date : String
  return_date : String
  travelers : Int
  trip_type : String
  hotel_check_in : String
  hotel_check_out : String
deriving DecidableEq

/-- A JSON patch returned by the extraction model: each of the six schema
keys may be absent (`none`) or present with a value (which may itself be
Python-falsy: `""` for strings, `0` for the traveler count). -/
structure Patch where
  origin : Option String := none
  destination : Option String := none
  departure_date : Option String := none
  return_date : Option String := none
  travelers : Option Int := none
  trip_type : Option String := none
deriving DecidableEq

/-- The initial profile created by `init_session_state` (lines 15-24). -/
def init_trip_details : TripDetails :=
  { origin := ""
    destination := ""
    departure_date := ""
    return_date := ""
    travelers := 1
    trip_type := "one-way"
    hotel_check_in := ""
    hotel_check_out := "" }

/-- One step of the merge loop of `extract_trip_details` (lines 352-355)
for a string-valued key: `if value: merged_details[key] = value`. -/
def mergeS (cur : String) (p : Option String) : String :=
  match p with
  | some v => if v = "" then cur else v
  | none => cur

/-- One step of the merge loop of `extract_trip_details` (lines 352-355)
for the integer-valued key `travelers`: `0` is Python-falsy. -/
def mergeI (cur : Int) (p : Option Int) : Int :=
  match p with
  | some v => if v = 0 then cur else v
  | none => cur

/-- The merge of an extracted patch into the current details inside
`extract_trip_details` (lines 351-360): every truthy patch value
overwrites, then a present and non-empty `return_date` forces
`trip_type` to `"round-trip"`. -/
def merge (current_details : TripDetails) (patch : Patch) : TripDetails :=
  let merged : TripDetails :=
    { current_details with
      origin := mergeS current_details.origin patch.origin
      destination := mergeS current_details.destination patch.destination
      departure_date := mergeS current_details.departure_date patch.departure_date
      return_date := mergeS current_details.return_date patch.return_date
      travelers := mergeI current_details.travelers patch.travelers
      trip_type := mergeS current_details.trip_type patch.trip_type }
  match patch.return_date with
  | some v => if v = "" then merged else { merged with trip_type := "round-trip" }
  | none => merged

/-- `extract_trip_details` (lines 310-364).  The external model call,
the code-fence stripping and `json.loads` are abstracted into the
`modelOutput : Option Patch` argument: `none` is any raised exception or
unparseable output, in which case the `except` branch (line 362-364)
returns `current_details` unchanged. -/
def extract_trip_details (modelOutput : Option Patch) (current_details : TripDetails) :
    TripDetails :=
  match modelOutput with
  | some patch => merge current_details patch
  | none => current_details

/-- Lookup of a string-valued required field by name, as
`details.get(field)` does in `check_missing_details`; only the four
required-field names ever reach it. -/
def strField (details : TripDetails) (f : String) : String :=
  if f = "origin" then details.origin
  else if f = "destination" then details.destination
  else if f = "departure_date" then details.departure_date
  else if f = "return_date" then details.return_date
  else ""

/-- `check_missing_details` (lines 392-396): the required fields in fixed
order, with `return_date` appended only for a round trip, filtered to the
Python-falsy (empty) ones. -/
def check_missing_details (details : TripDetails) : List String :=
  let required_fields := ["origin", "destination", "departure_date"]
  let required_fields :=
    if details.trip_type = "round-trip" then required_fields ++ ["return_date"]
    else required_fields
  required_fields.filter (fun f => strField details f = "")

/-- The list the specification describes for `missing_fields`: each
required field contributes itself exactly when it is empty, in the fixed
priority order, `return_date` being a candidate only for round trips. -/
def missingFieldsSpec (details : TripDetails) : List String :=
  (if details.origin = "" then ["origin"] else []) ++
  (if details.destination = "" then ["destination"] else []) ++
  (if details.departure_date = "" then ["departure_date"] else []) ++
  (if details.trip_type = "round-trip" ∧ details.return_date = "" then ["return_date"]
   else [])

/-- Whether a patch carries a truthy (present and non-empty) `return_date`,
the guard of line 358. -/
def has_return (p : Patch) : Bool :=
  match p.return_date with
  | some v => v ≠ ""
  | none => false

/-- Whether a patch carries a truthy `trip_type` value. -/
def has_trip (p : Patch) : Bool :=
  match p.trip_type with
  | some v => v ≠ ""
  | none => false

/-- Whether an optional string patch value is absent or Python-falsy
(empty), in which case line 354 does not write it. -/
def absentOrEmptyS (p : Option String) : Prop :=
  p = none ∨ p = some ""

/-- Whether the optional traveler count is absent or Python-falsy (zero). -/
def absentOrEmptyI (p : Option Int) : Prop :=
  p = none ∨ p = some 0

/-- Python truthiness of an optional string patch value. -/
def truthyS (p : Option String) : Bool :=
  match p with
  | some v => v ≠ ""
  | none => false

/-- Python truthiness of the optional traveler count. -/
def truthyI (p : Option Int) : Bool :=
  match p with
  | some v => v ≠ 0
  | none => false

/-- The set (as an ordered list) of fields a patch actually writes: the
present, truthy ones. -/
def patch_fields (p : Patch) : List String :=
  (if truthyS p.origin then ["origin"] else []) ++
  (if truthyS p.destination then ["destination"] else []) ++
  (if truthyS p.departure_date then ["departure_date"] else []) ++
  (if truthyS p.return_date then ["return_date"] else []) ++
  (if truthyI p.travelers then ["travelers"] else []) ++
  (if truthyS p.trip_type then ["trip_type"] else [])

/-- Two patches are disjoint when no field is written by both. -/
def disjointPatches (p q : Patch) : Prop :=
  ∀ f ∈ patch_fields p, f ∉ patch_fields q

instance (p q : Patch) : Decidable (disjointPatches p q) := by
  unfold disjointPatches
  infer_instance

/-- The first patch of the commutativity counterexample: only a non-empty
`return_date`. -/
def c4_patch_return : Patch := { return_date := some "2025-05-10" }

/-- The second patch of the commutativity counterexample: only a non-empty
`trip_type`. -/
def c4_patch_trip : Patch := { trip_type := some "one-way" }

/-- A calendar date, the value space of Python's
`datetime.strptime(s, "%Y-%m-%d")`. -/
structure Date where
  year : Nat
  month : Nat
  day : Nat
deriving DecidableEq

/-- Gregorian leap-year rule used by `datetime`. -/
def isLeap (y : Nat) : Bool :=
  (y % 4 = 0 && y % 100 ≠ 0) || y % 400 = 0

/-- Number of days in a month of a given year. -/
def daysInMonth (y m : Nat) : Nat :=
  if m = 2 then (if isLeap y then 29 else 28)
  else if m = 4 ∨ m = 6 ∨ m = 9 ∨ m = 11 then 30
  else 31

/-- Split a character list at every dash, the field separation `strptime`
performs for the pattern `%Y-%m-%d`. -/
def splitDash : List Char → List (List Char)
  | [] => [[]]
  | c :: cs =>
    let rest := splitDash cs
    if c = '-' then [] :: rest
    else
      match rest with
      | r :: rs => (c :: r) :: rs
      | [] => [[c]]

/-- Parse a non-empty all-digit character sequence as a decimal number,
as `%Y`, `%m` and `%d` do. -/
def digitsToNat (cs : List Char) : Option Nat :=
  if cs ≠ [] ∧ cs.all Char.isDigit then
    some (cs.foldl (fun acc c => acc * 10 + (c.toNat - 48)) 0)
  else none

/-- `datetime.strptime(s, "%Y-%m-%d")` (line 595): three dash-separated
decimal components forming a valid calendar date, else a raised
`ValueError` (`none`). -/
def parseDate (s : String) : Option Date :=
  match splitDash s.data with
  | [ys, ms, ds] =>
    match digitsToNat ys, digitsToNat ms, digitsToNat ds with
    | some y, some m, some d =>
      if 1 ≤ m ∧ m ≤ 12 ∧ 1 ≤ d ∧ d ≤ daysInMonth y m then some ⟨y, m, d⟩
      else none
    | _, _, _ => none
  | _ => none

/-- Zero-pad a number to two digits, as `%m`/`%d` of `strftime` do. -/
def pad2 (n : Nat) : String :=
  if n < 10 then "0" ++ toString n else toString n

/-- Zero-pad a number to four digits, as `%Y` of `strftime` does. -/
def pad4 (n : Nat) : String :=
  if n < 10 then "000" ++ toString n
  else if n < 100 then "00" ++ toString n
  else if n < 1000 then "0" ++ toString n
  else toString n

/-- `date.strftime("%Y-%m-%d")` (line 596). -/
def formatDate (d : Date) : String :=
  pad4 d.year ++ "-" ++ pad2 d.month ++ "-" ++ pad2 d.day

/-- The calendar successor of a date. -/
def nextDay (d : Date) : Date :=
  if d.day < daysInMonth d.year d.month then ⟨d.year, d.month, d.day + 1⟩
  else if d.month < 12 then ⟨d.year, d.month + 1, 1⟩
  else ⟨d.year + 1, 1, 1⟩

/-- `date + timedelta(days=n)` (line 596). -/
def addDays (d : Date) : Nat → Date
  | 0 => d
  | n + 1 => nextDay (addDays d n)

/-- One hotel offer as used by `format_hotel_results` (lines 550-555). -/
structure HotelOffer where
  price_total : String
  room_category : String
deriving DecidableEq

/-- One entry of a hotel response's `data` list. -/
structure HotelEntry where
  name : String
  rating : String
  address_line : String
  hotelId : String
  offers : List HotelOffer
deriving DecidableEq

/-- The hard-coded fallback hotel list of `search_hotels`
(lines 162-205). -/
def dummy_hotels (city_code : String) : List HotelEntry :=
  [⟨"Beachside Resort " ++ city_code, "4", "Beach Road, Calangute", "DUMMY1",
    [⟨"12500", "Deluxe Room with Ocean View"⟩]⟩,
   ⟨"City Center Hotel " ++ city_code, "5", "Main Street, Panjim", "DUMMY2",
    [⟨"18900", "Executive Suite"⟩]⟩,
   ⟨"Palm Grove Resort " ++ city_code, "3", "South Anjuna, North Goa", "DUMMY3",
    [⟨"8750", "Standard Room with Garden View"⟩]⟩]

/-- `search_hotels` (lines 136-241).  The Amadeus calls are abstracted into
`api : Option (List HotelEntry)`: `none` is a raised exception or a failed
HTTP status, `some offers` the collected offers.  With no token the
function returns `None` (line 137-138); otherwise a non-empty API result is
returned as is, and every failure path falls back to the dummy list
(lines 236-241). -/
def search_hotels (city_code : String) (token : Option String)
    (api : Option (List HotelEntry)) : Option (List HotelEntry) :=
  match token with
  | none => none
  | some _ =>
    some (match api with
      | some offers => if offers.isEmpty then dummy_hotels city_code else offers
      | none => dummy_hotels city_code)

/-- The star string of line 558: one star per rating unit when the rating
is a non-empty digit string. -/
def stars_display (rating : String) : String :=
  if rating ≠ "" ∧ rating.all Char.isDigit then
    String.join (List.replicate (rating.toNat?.getD 0) "⭐")
  else ""

/-- The markdown block `format_hotel_results` emits for one hotel entry
(lines 544-570); an entry without offers is skipped (`continue`).  The
amenities line is drawn from the fixed four-element list; the
`random.shuffle` of line 567 is modelled as the identity permutation,
which only affects which three names appear, never whether the block is
produced. -/
def hotel_block (h : HotelEntry) : String :=
  match h.offers with
  | [] => ""
  | offer :: _ =>
    "#### " ++ h.name ++ " " ++ stars_display h.rating ++ "\n" ++
    "**Price:** ₹" ++ offer.price_total ++ " total\n" ++
    "**Room Type:** " ++ offer.room_category ++ "\n" ++
    "**Address:** " ++ h.address_line ++ "\n" ++
    "**Amenities:** Free WiFi, Swimming Pool, Restaurant\n\n" ++
    "---\n\n"

/-- `format_hotel_results` (lines 538-572): `None` exactly when there is
no response or its `data` list is empty (lines 539-540), else the
markdown for the first three entries. -/
def format_hotel_results (data : Option (List HotelEntry)) : Option String :=
  match data with
  | none => none
  | some entries =>
    if entries.isEmpty then none
    else
      some ((entries.take 3).foldl (fun acc h => acc ++ hotel_block h)
        "### Your Hotel Options\n\n")

/-- One flight offer of a flight response's `data` list.  Only the grand
total is carried: the itinerary/segment rendering of
`format_flight_results` (lines 454-534) is presentation detail that the
verified properties never inspect; what is modelled exactly is when the
function returns `None`. -/
structure FlightOffer where
  grandTotal : String
deriving DecidableEq

/-- `search_flights` (lines 115-134): `None` without a token, otherwise
the API response (`none` being a failed status or raised exception). -/
def search_flights (token : Option String) (api : Option (List FlightOffer)) :
    Option (List FlightOffer) :=
  match token with
  | none => none
  | some _ => api

/-- The markdown `format_flight_results` builds from a non-empty offer
list (header of line 448 plus one block per offer, first three only);
itinerary details abbreviated to the offer price. -/
def flight_markdown (offers : List FlightOffer) : String :=
  (offers.take 3).foldl
    (fun acc o => acc ++ "#### Option: ₹" ++ o.grandTotal ++ "\n\n---\n\n")
    "### Your Flight Options\n\n"

/-- `format_flight_results` (lines 444-536): `None` exactly when there is
no response or its `data` list is empty (lines 445-446). -/
def format_flight_results (data : Option (List FlightOffer)) : Option String :=
  match data with
  | none => none
  | some offers =>
    if offers.isEmpty then none else some (flight_markdown offers)

/-- The `AIRPORT_CODES` table (lines 49-65). -/
def AIRPORT_CODES : List (String × String) :=
  [("DEL", "Delhi"), ("BOM", "Mumbai"), ("GOI", "Goa"), ("BLR", "Bangalore"),
   ("HYD", "Hyderabad"), ("CCU", "Kolkata"), ("MAA", "Chennai"),
   ("GOX", "Goa"), ("IXG", "Belgaum"), ("JFK", "New York"),
   ("LHR", "London"), ("CDG", "Paris"), ("DXB", "Dubai"),
   ("SIN", "Singapore"), ("BKK", "Bangkok")]

/-- `get_city_name` (lines 284-286). -/
def get_city_name (code : String) : String :=
  (List.lookup code AIRPORT_CODES).getD code

/-- `get_travel_recommendations` (lines 288-308).  The LLM call is
abstracted into `modelResponse`: `none` is a raised exception, in which
case the except branch returns the apology sentence built from the city
name. -/
def get_travel_recommendations (modelResponse : Option String)
    (destination dates : String) : String :=
  match modelResponse with
  | some t => t
  | none =>
    "I\x27d love to tell you more about " ++ get_city_name destination ++
    ", but I\x27m having trouble accessing that information right now."

/-- The `check_out` computation of `gather_trip_results` (lines 592-596):
the `return_date` when truthy, else departure plus three days; `none`
models the uncaught `ValueError` from `strptime` on an unparseable
departure date. -/
def hotel_check_out (details : TripDetails) : Option String :=
  if details.return_date ≠ "" then some details.return_date
  else
    match parseDate details.departure_date with
    | some d => some (formatDate (addDays d 3))
    | none => none

/-- The `dates` string of lines 609-613. -/
def trip_dates_string (details : TripDetails) : String :=
  details.departure_date ++
  (if details.return_date ≠ "" then " to " ++ details.return_date
   else " onwards")

/-- External outcomes of one run of `gather_trip_results`: the token
endpoint (`none` = `get_amadeus_token` returned `None`; the inner option
is the `access_token` field), and the three sub-search backends. -/
structure GatherEnv where
  token_data : Option (Option String)
  flight_api : Option (List FlightOffer)
  hotel_api : Option (List HotelEntry)
  rec_api : Option String
deriving DecidableEq

/-- The `results` dictionary of `gather_trip_results`; a key never
assigned is `none`, matching the `results.get(...)` falsiness tests of
`show_trip_results`. -/
structure SearchResults where
  flights : Option String := none
  hotels : Option String := none
  recommendations : Option String := none
deriving DecidableEq

/-- The arguments `gather_trip_results` passes to `search_hotels`
(lines 598-604), recorded so invocation facts can be stated. -/
structure HotelCall where
  city_code : String
  check_in : String
  check_out : String
  travelers : Int
deriving DecidableEq

/-- The recommendations section of `gather_trip_results` (lines 607-619),
executed whether or not the token was obtained. -/
def recommendations_part (env : GatherEnv) (details : TripDetails) :
    Option String :=
  if details.destination ≠ "" then
    some (get_travel_recommendations env.rec_api details.destination
      (trip_dates_string details))
  else none

/-- `gather_trip_results` (lines 574-621), also returning the
`search_hotels` invocation it performed, if any.  The overall `none`
models the uncaught `ValueError` when `strptime` fails on the departure
date (line 595). -/
def gather_trip_results (env : GatherEnv) (details : TripDetails) :
    Option (SearchResults × Option HotelCall) :=
  match env.token_data with
  | none => some ({ recommendations := recommendations_part env details }, none)
  | some token =>
    let flights := format_flight_results (search_flights token env.flight_api)
    if details.destination ≠ "" then
      match hotel_check_out details with
      | none => none
      | some check_out =>
        some ({ flights := flights
                hotels := format_hotel_results
                  (search_hotels details.destination token env.hotel_api)
                recommendations := recommendations_part env details },
          some ⟨details.destination, details.departure_date, check_out,
            details.travelers⟩)
    else
      some ({ flights := flights
              recommendations := recommendations_part env details }, none)

/-- The `flights` entry of a completed gather, `none` when the run
aborted. -/
def flights_of (o : Option (SearchResults × Option HotelCall)) :
    Option String :=
  match o with
  | some r => r.1.flights
  | none => none

/-- The `hotels` entry of a completed gather. -/
def hotels_of (o : Option (SearchResults × Option HotelCall)) :
    Option String :=
  match o with
  | some r => r.1.hotels
  | none => none

/-- The `recommendations` entry of a completed gather. -/
def recommendations_of (o : Option (SearchResults × Option HotelCall)) :
    Option String :=
  match o with
  | some r => r.1.recommendations
  | none => none

/-- The recorded `search_hotels` invocation of a completed gather. -/
def hotel_call_of (o : Option (SearchResults × Option HotelCall)) :
    Option HotelCall :=
  match o with
  | some r => r.2
  | none => none

/-- One entry of the `originDestinations` payload list built by
`build_flight_payload` (lines 399-418); `departureDateTimeRange` is
flattened into its `date` and `time` members. -/
structure OriginDestination where
  id : String
  originLocationCode : String
  destinationLocationCode : String
  departure_date : String
  departure_time : String
deriving DecidableEq

/-- One entry of the `travelers` payload list (lines 423-428). -/
structure TravelerEntry where
  id : String
  travelerType : String
deriving DecidableEq

/-- The flight-offers request payload (lines 420-442), with the nested
`searchCriteria` flattened into its leaf values. -/
structure FlightPayload where
  currencyCode : String
  originDestinations : List OriginDestination
  travelers : List TravelerEntry
  sources : List String
  maxFlightOffers : Nat
  cabin : String
  coverage : String
  originDestinationIds : List String
deriving DecidableEq

/-- `build_flight_payload` (lines 398-442).  The second leg is appended
iff the trip type is `"round-trip"` and `return_date` is truthy
(line 409); `range(travelers)` of a non-positive count is empty, matching
`Int.toNat`. -/
def build_flight_payload (details : TripDetails) : FlightPayload :=
  let origin_destinations :=
    [(⟨"1", details.origin, details.destination, details.departure_date,
      "10:00:00"⟩ : OriginDestination)]
  let origin_destinations :=
    if details.trip_type = "round-trip" ∧ details.return_date ≠ "" then
      origin_destinations ++
        [⟨"2", details.destination, details.origin, details.return_date,
          "10:00:00"⟩]
    else origin_destinations
  { currencyCode := "INR"
    originDestinations := origin_destinations
    travelers := (List.range details.travelers.toNat).map
      (fun i => ⟨toString (i + 1), "ADULT"⟩)
    sources := ["GDS"]
    maxFlightOffers := 5
    cabin := "ECONOMY"
    coverage := "MOST_SEGMENTS"
    originDestinationIds :=
      if details.trip_type = "round-trip" then ["1", "2"] else ["1"] }

/-- Modelled from the spec: the conversation states of §4.2.  The
Streamlit chat-loop code that owns `current_step` is not part of the
checked source (the file is cut off before the main UI loop), so the
Conversation Controller is taken from the specification. -/
inductive ConvState where
  | CollectingDetails
  | AwaitingSpecificField (field : String)
  | Searching
  | ResultsReady
  | FollowUp
deriving DecidableEq

/-- Modelled from the spec: a controller configuration — the active state
together with the trip profile it owns. -/
structure ConvConfig where
  state : ConvState
  profile : TripDetails
deriving DecidableEq

/-- Modelled from the spec: the stimuli the controller reacts to.  A free
utterance carries the extraction outcome (`none` = extraction failure); a
field answer carries the verbatim value; a follow-up utterance carries
whether it expresses the another-trip intent. -/
inductive ConvInput where
  | utterance (extraction : Option Patch)
  | fieldAnswer (value : String)
  | searchFinished
  | nextUtterance
  | followUpUtterance (anotherTrip : Bool)
deriving DecidableEq

/-- Modelled from the spec: the verbatim write of an answered field in
`AwaitingSpecificField` (§4.2, no validation). -/
def setField (details : TripDetails) (f v : String) : TripDetails :=
  if f = "origin" then { details with origin := v }
  else if f = "destination" then { details with destination := v }
  else if f = "departure_date" then { details with departure_date := v }
  else if f = "return_date" then { details with return_date := v }
  else details

/-- Modelled from the spec: the transition function of §4.2.
Stimulus/state pairs the spec does not mention leave the configuration
unchanged. -/
def conv_step (c : ConvConfig) (i : ConvInput) : ConvConfig :=
  match c.state, i with
  | ConvState.CollectingDetails, ConvInput.utterance ext =>
    match ext with
    | none => c
    | some p =>
      let profile := merge c.profile p
      match check_missing_details profile with
      | [] => ⟨ConvState.Searching, profile⟩
      | f :: _ => ⟨ConvState.AwaitingSpecificField f, profile⟩
  | ConvState.AwaitingSpecificField f, ConvInput.fieldAnswer v =>
    let profile := setField c.profile f v
    match check_missing_details profile with
    | [] => ⟨ConvState.Searching, profile⟩
    | g :: _ => ⟨ConvState.AwaitingSpecificField g, profile⟩
  | ConvState.Searching, ConvInput.searchFinished =>
    ⟨ConvState.ResultsReady, c.profile⟩
  | ConvState.ResultsReady, ConvInput.nextUtterance =>
    ⟨ConvState.FollowUp, c.profile⟩
  | ConvState.FollowUp, ConvInput.followUpUtterance b =>
    if b then ⟨ConvState.CollectingDetails, init_trip_details⟩ else c
  | _, _ => c

/-- Modelled from the spec: the configurations reachable from the initial
one (`CollectingDetails` with the empty profile of `init_session_state`). -/
inductive Reachable : ConvConfig → Prop where
  | init : Reachable ⟨ConvState.CollectingDetails, init_trip_details⟩
  | step (c : ConvConfig) (i : ConvInput) (h : Reachable c) :
      Reachable (conv_step c i)

/-- The gather environment of the C6 scenario: token obtained, flight and
recommendation backends succeed, the hotel backend raises. -/
def c6_env : GatherEnv :=
  { token_data := some (some "token")
    flight_api := some [⟨"4500"⟩]
    hotel_api := none
    rec_api := some "Goa is wonderful in May!" }

/-- The completed round-trip profile of the C6 scenario. -/
def c6_details : TripDetails :=
  { origin := "DEL"
    destination := "GOI"
    departure_date := "2025-05-01"
    return_date := "2025-05-10"
    travelers := 2
    trip_type := "round-trip"
    hotel_check_in := ""
    hotel_check_out := "" }

/-- The gather environment of the C9 witness: token obtained, every
backend failing (irrelevant to the recorded hotel call). -/
def c9_env : GatherEnv :=
  { token_data := some (some "token")
    flight_api := none
    hotel_api := none
    rec_api := none }

/-- A completed one-way profile whose hotel check-out must be computed as
departure plus three days. -/
def c9_details : TripDetails :=
  { origin := "DEL"
    destination := "GOI"
    departure_date := "2025-05-01"
    return_date := ""
    travelers := 2
    trip_type := "one-way"
    hotel_check_in := ""
    hotel_check_out := "" }

/-- The extraction patch of the C7 witness: one utterance supplying every
required field of a one-way trip. -/
def c7_patch : Patch :=
  { origin := some "DEL"
    destination := some "GOI"
    departure_date := some "2025-05-01"
    travelers := some 2 }

/-- The configuration reached from the initial one by the C7 witness
utterance. -/
def c7_config : ConvConfig :=
  conv_step ⟨ConvState.CollectingDetails, init_trip_details⟩
    (ConvInput.utterance (some c7_patch))

/-- The completed round-trip profile of the C10 witness. -/
def c10_details : TripDetails :=
  { origin := "DEL"
    destination := "GOI"
    departure_date := "2025-05-01"
    return_date := "2025-05-10"
    travelers := 2
    trip_type := "round-trip"
    hotel_check_in := ""
    hotel_check_out := "" }

theorem merge_origin (P : TripDetails) (D : Patch) :
    (merge P D).origin = mergeS P.origin D.origin := by
  unfold merge
  cases D.return_date with
  | none => rfl
  | some v => by_cases h : v = "" <;> simp [h]

theorem merge_destination (P : TripDetails) (D : Patch) :
    (merge P D).destination = mergeS P.destination D.destination := by
  unfold merge
  cases D.return_date with
  | none => rfl
  | some v => by_cases h : v = "" <;> simp [h]

theorem merge_departure_date (P : TripDetails) (D : Patch) :
    (merge P D).departure_date = mergeS P.departure_date D.departure_date := by
  unfold merge
  cases D.return_date with
  | none => rfl
  | some v => by_cases h : v = "" <;> simp [h]

theorem merge_return_date (P : TripDetails) (D : Patch) :
    (merge P D).return_date = mergeS P.return_date D.return_date := by
  unfold merge
  cases D.return_date with
  | none => rfl
  | some v => by_cases h : v = "" <;> simp [h, mergeS]

theorem merge_travelers (P : TripDetails) (D : Patch) :
    (merge P D).travelers = mergeI P.travelers D.travelers := by
  unfold merge
  cases D.return_date with
  | none => rfl
  | some v => by_cases h : v = "" <;> simp [h]

theorem merge_trip_type (P : TripDetails) (D : Patch) :
    (merge P D).trip_type =
      if has_return D then "round-trip" else mergeS P.trip_type D.trip_type := by
  unfold merge has_return
  cases D.return_date with
  | none => rfl
  | some v => by_cases h : v = "" <;> simp [h]

theorem merge_hotel_check_in (P : TripDetails) (D : Patch) :
    (merge P D).hotel_check_in = P.hotel_check_in := by
  unfold merge
  cases D.return_date with
  | none => rfl
  | some v => by_cases h : v = "" <;> simp [h]

theorem merge_hotel_check_out (P : TripDetails) (D : Patch) :
    (merge P D).hotel_check_out = P.hotel_check_out := by
  unfold merge
  cases D.return_date with
  | none => rfl
  | some v => by_cases h : v = "" <;> simp [h]

/-- C2: for every profile, `check_missing_details` returns exactly the
required fields that are currently empty, in the fixed priority order
`[origin, destination, departure_date, return_date]`, `return_date` being a
candidate only for a round trip; the traveler count is never required. -/
theorem c2_missing_fields_order (details : TripDetails) :
    check_missing_details details = missingFieldsSpec details ∧
    "travelers" ∉ check_missing_details details := by
  constructor
  · unfold check_missing_details missingFieldsSpec strField
    by_cases h : details.trip_type = "round-trip" <;>
      by_cases h1 : details.origin = "" <;>
      by_cases h2 : details.destination = "" <;>
      by_cases h3 : details.departure_date = "" <;>
      by_cases h4 : details.return_date = "" <;>
      simp [h, h1, h2, h3, h4, List.filter]
  · unfold check_missing_details strField
    by_cases h : details.trip_type = "round-trip" <;>
      simp [h, List.mem_filter]

/-- C3: merging any patch that carries a present, non-empty `return_date`
yields a profile whose `trip_type` is `"round-trip"`, whatever the previous
trip type and whatever `trip_type` value the same patch carries. -/
theorem c3_return_date_forces_round_trip (P : TripDetails) (D : Patch)
    (r : String) (hD : D.return_date = some r) (hr : r ≠ "") :
    (merge P D).trip_type = "round-trip" := by
  rw [merge_trip_type]
  have : has_return D = true := by
    unfold has_return
    rw [hD]
    simpa using hr
  simp [this]

/-- Witness for C3 at a concrete profile and patch. -/
theorem c3_witness :
    (merge init_trip_details { return_date := some "2025-05-10" }).trip_type =
      "round-trip" :=
  c3_return_date_forces_round_trip init_trip_details
    { return_date := some "2025-05-10" } "2025-05-10" rfl (by decide)

/-- C5: when the extraction model call fails or its output is not
parseable JSON (`modelOutput = none`), `extract_trip_details` returns the
current details unchanged — no partial update and no crash. -/
theorem c5_extraction_failure_identity (current_details : TripDetails) :
    extract_trip_details none current_details = current_details := rfl

theorem mergeS_absent (c : String) (p : Option String) (h : absentOrEmptyS p) :
    mergeS c p = c := by
  rcases h with h | h <;> simp [h, mergeS]

theorem mergeI_absent (c : Int) (p : Option Int) (h : absentOrEmptyI p) :
    mergeI c p = c := by
  rcases h with h | h <;> simp [h, mergeI]

/-- C1 as stated is false: the patch that only carries
`return_date = "2025-05-10"` does not mention `trip_type` at all, yet the
merge changes `trip_type` from `"one-way"` to `"round-trip"`. -/
theorem c1_counterexample :
    ({ return_date := some "2025-05-10" } : Patch).trip_type = none ∧
    (merge init_trip_details { return_date := some "2025-05-10" }).trip_type ≠
      init_trip_details.trip_type := by
  constructor
  · rfl
  · decide

/-- C1 amended: the merge agrees with the current profile on every field
that is absent or empty in the patch, except that `trip_type` is
additionally preserved only when the patch's `return_date` is also absent
or empty (a non-empty `return_date` forces `trip_type` to round-trip even
though `trip_type` itself is not in the patch); the two hotel fields are
never touched by a patch. -/
theorem c1_merge_frame_amended (P : TripDetails) (D : Patch) :
    (absentOrEmptyS D.origin → (merge P D).origin = P.origin) ∧
    (absentOrEmptyS D.destination → (merge P D).destination = P.destination) ∧
    (absentOrEmptyS D.departure_date →
      (merge P D).departure_date = P.departure_date) ∧
    (absentOrEmptyS D.return_date → (merge P D).return_date = P.return_date) ∧
    (absentOrEmptyI D.travelers → (merge P D).travelers = P.travelers) ∧
    (absentOrEmptyS D.trip_type → absentOrEmptyS D.return_date →
      (merge P D).trip_type = P.trip_type) ∧
    (merge P D).hotel_check_in = P.hotel_check_in ∧
    (merge P D).hotel_check_out = P.hotel_check_out := by
  refine ⟨?_, ?_, ?_, ?_, ?_, ?_, merge_hotel_check_in P D, merge_hotel_check_out P D⟩
  · intro h; rw [merge_origin, mergeS_absent _ _ h]
  · intro h; rw [merge_destination, mergeS_absent _ _ h]
  · intro h; rw [merge_departure_date, mergeS_absent _ _ h]
  · intro h; rw [merge_return_date, mergeS_absent _ _ h]
  · intro h; rw [merge_travelers, mergeI_absent _ _ h]
  · intro ht hret
    have hr : has_return D = false := by
      rcases hret with h | h <;> simp [has_return, h]
    rw [merge_trip_type, hr]
    simpa using mergeS_absent P.trip_type D.trip_type ht

/-- Witness for the amended C1 at a concrete profile and patch. -/
theorem c1_witness :
    (merge init_trip_details { destination := some "GOI" }).origin =
      init_trip_details.origin :=
  (c1_merge_frame_amended init_trip_details { destination := some "GOI" }).1
    (Or.inl rfl)

/-- C8 as stated is false: a patch carrying the truthy traveler count `-1`
drives the count below 1 (only the Python-falsy value `0` is ignored). -/
theorem c8_counterexample :
    init_trip_details.travelers = 1 ∧
    (merge init_trip_details { travelers := some (-1) }).travelers = -1 := by
  constructor
  · rfl
  · decide

/-- C8 amended: the profile is created with `travelers = 1`, and a merge
preserves `travelers ≥ 1` provided the patch's traveler count, when
present, is non-negative (zero is Python-falsy and ignored; a negative
value would be written verbatim). -/
theorem c8_travelers_amended (P : TripDetails) (D : Patch)
    (hP : 1 ≤ P.travelers) (hD : ∀ v, D.travelers = some v → 0 ≤ v) :
    init_trip_details.travelers = 1 ∧ 1 ≤ (merge P D).travelers := by
  refine ⟨rfl, ?_⟩
  rw [merge_travelers]
  cases hv : D.travelers with
  | none => simpa [mergeI] using hP
  | some v =>
    by_cases h0 : v = 0
    · simpa [mergeI, h0] using hP
    · have := hD v hv
      have : 1 ≤ v := by omega
      simpa [mergeI, h0] using this

/-- Witness for the amended C8 at a concrete profile and patch. -/
theorem c8_witness :
    init_trip_details.travelers = 1 ∧
    1 ≤ (merge init_trip_details { travelers := some 2 }).travelers :=
  c8_travelers_amended init_trip_details { travelers := some 2 } (by decide)
    (by intro v hv; cases hv; decide)

theorem disjoint_origin (D1 D2 : Patch) (h : disjointPatches D1 D2) :
    ¬(truthyS D1.origin = true ∧ truthyS D2.origin = true) := by
  rintro ⟨h1, h2⟩
  exact h "origin" (by simp [patch_fields, h1]) (by simp [patch_fields, h2])

theorem disjoint_destination (D1 D2 : Patch) (h : disjointPatches D1 D2) :
    ¬(truthyS D1.destination = true ∧ truthyS D2.destination = true) := by
  rintro ⟨h1, h2⟩
  exact h "destination" (by simp [patch_fields, h1]) (by simp [patch_fields, h2])

theorem disjoint_departure_date (D1 D2 : Patch) (h : disjointPatches D1 D2) :
    ¬(truthyS D1.departure_date = true ∧ truthyS D2.departure_date = true) := by
  rintro ⟨h1, h2⟩
  exact h "departure_date" (by simp [patch_fields, h1]) (by simp [patch_fields, h2])

theorem disjoint_return_date (D1 D2 : Patch) (h : disjointPatches D1 D2) :
    ¬(truthyS D1.return_date = true ∧ truthyS D2.return_date = true) := by
  rintro ⟨h1, h2⟩
  exact h "return_date" (by simp [patch_fields, h1]) (by simp [patch_fields, h2])

theorem disjoint_travelers (D1 D2 : Patch) (h : disjointPatches D1 D2) :
    ¬(truthyI D1.travelers = true ∧ truthyI D2.travelers = true) := by
  rintro ⟨h1, h2⟩
  exact h "travelers" (by simp [patch_fields, h1]) (by simp [patch_fields, h2])

theorem disjoint_trip_type (D1 D2 : Patch) (h : disjointPatches D1 D2) :
    ¬(truthyS D1.trip_type = true ∧ truthyS D2.trip_type = true) := by
  rintro ⟨h1, h2⟩
  exact h "trip_type" (by simp [patch_fields, h1]) (by simp [patch_fields, h2])

theorem mergeS_idem (c : String) (p : Option String) :
    mergeS (mergeS c p) p = mergeS c p := by
  cases p with
  | none => rfl
  | some v => by_cases h : v = "" <;> simp [mergeS, h]

theorem mergeI_idem (c : Int) (p : Option Int) :
    mergeI (mergeI c p) p = mergeI c p := by
  cases p with
  | none => rfl
  | some v => by_cases h : v = 0 <;> simp [mergeI, h]

theorem mergeS_not_truthy (c : String) (p : Option String)
    (h : ¬ truthyS p = true) : mergeS c p = c := by
  cases p with
  | none => rfl
  | some v =>
    simp [truthyS] at h
    simp [mergeS, h]

theorem mergeI_not_truthy (c : Int) (p : Option Int)
    (h : ¬ truthyI p = true) : mergeI c p = c := by
  cases p with
  | none => rfl
  | some v =>
    simp [truthyI] at h
    simp [mergeI, h]

theorem mergeS_comm (c : String) (a b : Option String)
    (h : ¬(truthyS a = true ∧ truthyS b = true)) :
    mergeS (mergeS c a) b = mergeS (mergeS c b) a := by
  by_cases ha : truthyS a = true
  · have hb : ¬ truthyS b = true := fun hb => h ⟨ha, hb⟩
    rw [mergeS_not_truthy _ b hb, mergeS_not_truthy _ b hb]
  · rw [mergeS_not_truthy _ a ha, mergeS_not_truthy _ a ha]

theorem mergeI_comm (c : Int) (a b : Option Int)
    (h : ¬(truthyI a = true ∧ truthyI b = true)) :
    mergeI (mergeI c a) b = mergeI (mergeI c b) a := by
  by_cases ha : truthyI a = true
  · have hb : ¬ truthyI b = true := fun hb => h ⟨ha, hb⟩
    rw [mergeI_not_truthy _ b hb, mergeI_not_truthy _ b hb]
  · rw [mergeI_not_truthy _ a ha, mergeI_not_truthy _ a ha]

/-- Merging the same patch a second time changes nothing. -/
theorem merge_idem (P : TripDetails) (D : Patch) :
    merge (merge P D) D = merge P D := by
  apply TripDetails.ext
  · simp only [merge_origin]; exact mergeS_idem _ _
  · simp only [merge_destination]; exact mergeS_idem _ _
  · simp only [merge_departure_date]; exact mergeS_idem _ _
  · simp only [merge_return_date]; exact mergeS_idem _ _
  · simp only [merge_travelers]; exact mergeI_idem _ _
  · simp only [merge_trip_type]
    by_cases hr : has_return D = true
    · simp [hr]
    · simp [hr, mergeS_idem]
  · simp only [merge_hotel_check_in]
  · simp only [merge_hotel_check_out]

theorem has_return_eq_truthyS (p : Patch) :
    has_return p = truthyS p.return_date := rfl

theorem has_trip_eq_truthyS (p : Patch) :
    has_trip p = truthyS p.trip_type := rfl

/-- C4 as stated is false: the two patches write disjoint field sets
(`return_date` versus `trip_type`), yet merging them in the two orders
gives different profiles — the forced round-trip rule makes `return_date`
interfere with `trip_type`. -/
theorem c4_counterexample :
    disjointPatches c4_patch_return c4_patch_trip ∧
    merge (merge init_trip_details c4_patch_return) c4_patch_trip ≠
      merge (merge init_trip_details c4_patch_trip) c4_patch_return := by
  constructor
  · decide
  · decide

/-- C4 amended: the merge is idempotent, and it is commutative for
patches with disjoint written-field sets provided additionally that
neither patch carries a non-empty `return_date` while the other carries a
non-empty `trip_type` (the forced round-trip rule makes such pairs
order-dependent). -/
theorem c4_merge_idem_comm_amended (P : TripDetails) (D D1 D2 : Patch)
    (hdisj : disjointPatches D1 D2)
    (h1 : ¬(has_return D1 = true ∧ has_trip D2 = true))
    (h2 : ¬(has_return D2 = true ∧ has_trip D1 = true)) :
    merge (merge P D) D = merge P D ∧
    merge (merge P D1) D2 = merge (merge P D2) D1 := by
  refine ⟨merge_idem P D, ?_⟩
  apply TripDetails.ext
  · simp only [merge_origin]
    exact mergeS_comm _ _ _ (disjoint_origin D1 D2 hdisj)
  · simp only [merge_destination]
    exact mergeS_comm _ _ _ (disjoint_destination D1 D2 hdisj)
  · simp only [merge_departure_date]
    exact mergeS_comm _ _ _ (disjoint_departure_date D1 D2 hdisj)
  · simp only [merge_return_date]
    exact mergeS_comm _ _ _ (disjoint_return_date D1 D2 hdisj)
  · simp only [merge_travelers]
    exact mergeI_comm _ _ _ (disjoint_travelers D1 D2 hdisj)
  · simp only [merge_trip_type]
    by_cases hr1 : has_return D1 = true
    · by_cases hr2 : has_return D2 = true
      · exact absurd ⟨by rw [← has_return_eq_truthyS]; exact hr1,
          by rw [← has_return_eq_truthyS]; exact hr2⟩
          (disjoint_return_date D1 D2 hdisj)
      · have ht2 : ¬ has_trip D2 = true := fun ht => h1 ⟨hr1, ht⟩
        rw [has_trip_eq_truthyS] at ht2
        simp only [if_neg hr2, if_pos hr1]
        exact mergeS_not_truthy "round-trip" D2.trip_type ht2
    · by_cases hr2 : has_return D2 = true
      · have ht1 : ¬ has_trip D1 = true := fun ht => h2 ⟨hr2, ht⟩
        rw [has_trip_eq_truthyS] at ht1
        simp only [if_neg hr1, if_pos hr2]
        exact (mergeS_not_truthy "round-trip" D1.trip_type ht1).symm
      · simp only [if_neg hr1, if_neg hr2]
        exact mergeS_comm _ _ _ (disjoint_trip_type D1 D2 hdisj)
  · simp only [merge_hotel_check_in]
  · simp only [merge_hotel_check_out]

/-- Witness for the amended C4 at concrete patches with disjoint fields. -/
theorem c4_witness :
    merge (merge init_trip_details { origin := some "DEL" })
        { origin := some "DEL" } =
      merge init_trip_details { origin := some "DEL" } ∧
    merge (merge init_trip_details { origin := some "DEL" })
        { destination := some "GOI" } =
      merge (merge init_trip_details { destination := some "GOI" })
        { origin := some "DEL" } :=
  c4_merge_idem_comm_amended init_trip_details { origin := some "DEL" }
    { origin := some "DEL" } { destination := some "GOI" }
    (by decide) (by decide) (by decide)

/-- C6 as stated is false: when the hotel backend raises while the other
sub-searches succeed, the hotel result is not recorded as empty — the
`except` branch of `search_hotels` substitutes the non-empty dummy hotel
list, and the formatted hotel entry of the results is present. -/
theorem c6_counterexample :
    c6_env.hotel_api = none ∧
    hotels_of (gather_trip_results c6_env c6_details) =
      format_hotel_results (some (dummy_hotels "GOI")) ∧
    hotels_of (gather_trip_results c6_env c6_details) ≠ none := by
  refine ⟨rfl, rfl, ?_⟩
  decide

/-- C6 amended: with a token and a non-empty destination, the gather
still completes whatever subset of sub-searches fails; a failed flight
search is recorded as empty, a failed recommendations call is recorded as
the fallback apology text, but a failed hotel search is recorded as the
non-empty dummy hotel data rather than as empty; successful sub-searches
keep their own results. -/
theorem c6_partial_failure_amended (env : GatherEnv) (d : TripDetails)
    (t : String)
    (htok : env.token_data = some (some t))
    (hdest : d.destination ≠ "")
    (hco : (hotel_check_out d).isSome = true) :
    (gather_trip_results env d).isSome = true ∧
    (env.flight_api = none → flights_of (gather_trip_results env d) = none) ∧
    (env.hotel_api = none →
      hotels_of (gather_trip_results env d) =
        format_hotel_results (some (dummy_hotels d.destination))) ∧
    (env.rec_api = none →
      recommendations_of (gather_trip_results env d) =
        some (get_travel_recommendations none d.destination
          (trip_dates_string d))) ∧
    (∀ l, env.flight_api = some l →
      flights_of (gather_trip_results env d) =
        format_flight_results (some l)) ∧
    (∀ r, env.rec_api = some r →
      recommendations_of (gather_trip_results env d) = some r) := by
  cases hc : hotel_check_out d with
  | none => rw [hc] at hco; simp at hco
  | some co =>
    have hg : gather_trip_results env d =
        some ({ flights :=
                  format_flight_results (search_flights (some t) env.flight_api)
                hotels := format_hotel_results
                  (search_hotels d.destination (some t) env.hotel_api)
                recommendations := recommendations_part env d },
          some ⟨d.destination, d.departure_date, co, d.travelers⟩) := by
      unfold gather_trip_results
      rw [htok]
      simp [hdest, hc]
    refine ⟨by rw [hg]; rfl, ?_, ?_, ?_, ?_, ?_⟩
    · intro hf
      rw [hg]
      simp [flights_of, search_flights, hf, format_flight_results]
    · intro hh
      rw [hg]
      simp [hotels_of, search_hotels, hh]
    · intro hr
      rw [hg]
      simp [recommendations_of, recommendations_part, hdest, hr]
    · intro l hl
      rw [hg]
      simp [flights_of, search_flights, hl]
    · intro r hr
      rw [hg]
      simp [recommendations_of, recommendations_part, hdest, hr,
        get_travel_recommendations]

/-- Witness for the amended C6 in the concrete hotel-failure scenario. -/
theorem c6_witness :
    (gather_trip_results c6_env c6_details).isSome = true ∧
    hotels_of (gather_trip_results c6_env c6_details) =
      format_hotel_results (some (dummy_hotels c6_details.destination)) := by
  have h := c6_partial_failure_amended c6_env c6_details "token" rfl
    (by decide) (by decide)
  exact ⟨h.1, h.2.2.1 rfl⟩

/-- C7: in every reachable controller configuration, being in `Searching`
implies the profile has no missing required field — the search gateway is
never triggered with an incomplete profile. -/
theorem c7_searching_requires_complete (c : ConvConfig) (h : Reachable c)
    (hs : c.state = ConvState.Searching) :
    check_missing_details c.profile = [] := by
  have key : ∀ c, Reachable c →
      c.state = ConvState.Searching → check_missing_details c.profile = [] := by
    intro c hr
    induction hr with
    | init => intro hs; exact absurd hs (by decide)
    | step c0 i h0 ih =>
      intro hs
      obtain ⟨st, prof⟩ := c0
      cases st with
      | CollectingDetails =>
        cases i with
        | utterance ext =>
          cases ext with
          | none => simp [conv_step] at hs
          | some p =>
            cases hm : check_missing_details (merge prof p) with
            | nil => simp [conv_step, hm]
            | cons f rest => simp [conv_step, hm] at hs
        | fieldAnswer v => simp [conv_step] at hs
        | searchFinished => simp [conv_step] at hs
        | nextUtterance => simp [conv_step] at hs
        | followUpUtterance b => simp [conv_step] at hs
      | AwaitingSpecificField f =>
        cases i with
        | utterance ext => simp [conv_step] at hs
        | fieldAnswer v =>
          cases hm : check_missing_details (setField prof f v) with
          | nil => simp [conv_step, hm]
          | cons g rest => simp [conv_step, hm] at hs
        | searchFinished => simp [conv_step] at hs
        | nextUtterance => simp [conv_step] at hs
        | followUpUtterance b => simp [conv_step] at hs
      | Searching =>
        cases i with
        | utterance ext =>
          cases ext with
          | none => exact ih rfl
          | some p => exact ih rfl
        | fieldAnswer v => exact ih rfl
        | searchFinished => simp [conv_step] at hs
        | nextUtterance => exact ih rfl
        | followUpUtterance b => exact ih rfl
      | ResultsReady =>
        cases i with
        | utterance ext =>
          cases ext with
          | none => simp [conv_step] at hs
          | some p => simp [conv_step] at hs
        | fieldAnswer v => simp [conv_step] at hs
        | searchFinished => simp [conv_step] at hs
        | nextUtterance => simp [conv_step] at hs
        | followUpUtterance b => simp [conv_step] at hs
      | FollowUp =>
        cases i with
        | utterance ext =>
          cases ext with
          | none => simp [conv_step] at hs
          | some p => simp [conv_step] at hs
        | fieldAnswer v => simp [conv_step] at hs
        | searchFinished => simp [conv_step] at hs
        | nextUtterance => simp [conv_step] at hs
        | followUpUtterance b =>
          cases b with
          | true => simp [conv_step] at hs
          | false => simp [conv_step] at hs
  exact key c h hs

/-- Witness for C7: a reachable configuration that entered Searching. -/
theorem c7_witness : check_missing_details c7_config.profile = [] :=
  c7_searching_requires_complete c7_config
    (Reachable.step ⟨ConvState.CollectingDetails, init_trip_details⟩
      (ConvInput.utterance (some c7_patch)) Reachable.init)
    (by decide)

/-- C9: with a token obtained and a non-empty destination, and a
parseable departure date, the hotel search is invoked with check-in equal
to the departure date and check-out equal to the return date when that is
non-empty, otherwise the departure date plus exactly three days; the
traveler count is passed through. -/
theorem c9_hotel_call_dates (env : GatherEnv) (d : TripDetails)
    (t : Option String) (dt : Date)
    (htok : env.token_data = some t)
    (hdest : d.destination ≠ "")
    (hpar : parseDate d.departure_date = some dt) :
    hotel_call_of (gather_trip_results env d) =
      some ⟨d.destination, d.departure_date,
        (if d.return_date ≠ "" then d.return_date
         else formatDate (addDays dt 3)), d.travelers⟩ := by
  have hc : hotel_check_out d =
      some (if d.return_date ≠ "" then d.return_date
            else formatDate (addDays dt 3)) := by
    unfold hotel_check_out
    by_cases hret : d.return_date ≠ "" <;> simp [hret, hpar]
  unfold gather_trip_results
  rw [htok]
  simp [hdest, hc, hotel_call_of]

/-- Witness for C9: the check-out of a one-way trip departing 2025-05-01
is computed as 2025-05-04. -/
theorem c9_witness :
    hotel_call_of (gather_trip_results c9_env c9_details) =
      some ⟨"GOI", "2025-05-01", "2025-05-04", 2⟩ := by
  rw [c9_hotel_call_dates c9_env c9_details (some "token") ⟨2025, 5, 1⟩
    (by decide) (by decide) (by decide)]
  decide

/-- C10: the flight payload has a second leg iff the trip is round-trip
with a non-empty return date; that leg swaps origin and destination and
carries the return date; the first leg always carries origin, destination
and departure date; and the travelers array holds one ADULT entry per
traveler with ids 1 to n. -/
theorem c10_flight_payload (d : TripDetails) (n : Nat)
    (hn : d.travelers = (n : Int)) :
    ((build_flight_payload d).originDestinations.length = 2 ↔
      (d.trip_type = "round-trip" ∧ d.return_date ≠ "")) ∧
    (d.trip_type = "round-trip" ∧ d.return_date ≠ "" →
      (build_flight_payload d).originDestinations =
        [⟨"1", d.origin, d.destination, d.departure_date, "10:00:00"⟩,
         ⟨"2", d.destination, d.origin, d.return_date, "10:00:00"⟩]) ∧
    (¬(d.trip_type = "round-trip" ∧ d.return_date ≠ "") →
      (build_flight_payload d).originDestinations =
        [⟨"1", d.origin, d.destination, d.departure_date, "10:00:00"⟩]) ∧
    (build_flight_payload d).travelers.length = n ∧
    (∀ i (h : i < (build_flight_payload d).travelers.length),
      (build_flight_payload d).travelers.get ⟨i, h⟩ =
        ⟨toString (i + 1), "ADULT"⟩) := by
  refine ⟨?_, ?_, ?_, ?_, ?_⟩
  · by_cases hc : d.trip_type = "round-trip" ∧ d.return_date ≠ "" <;>
      simp [build_flight_payload, hc]
  · intro hc
    simp [build_flight_payload, hc]
  · intro hc
    simp [build_flight_payload, hc]
  · simp [build_flight_payload, hn]
  · intro i h
    simp [build_flight_payload, List.get_eq_getElem]

/-- Witness for C10 at a concrete completed round-trip profile. -/
theorem c10_witness :
    (build_flight_payload c10_details).originDestinations =
      [⟨"1", "DEL", "GOI", "2025-05-01", "10:00:00"⟩,
       ⟨"2", "GOI", "DEL", "2025-05-10", "10:00:00"⟩] ∧
    (build_flight_payload c10_details).travelers.length = 2 := by
  have h := c10_flight_payload c10_details 2 (by decide)
  exact ⟨h.2.1 (by decide), h.2.2.2.1⟩

